import Mathlib

/-
Shallow embedding of src/lib/ai/gemini.ts (AI Work Tracker, OpenAI integration).

The TypeScript module exports three operations:
  - callOpenAI (internal): wraps one HTTPS call to the chat-completions endpoint;
  - analyzeScreenshot: converts one screenshot into a ScreenshotAnalysis record;
  - generateReport: aggregates ScreenshotAnalysis records into a WorkReport.

External effects (the API key read from the process environment, the fetch call,
JSON.parse, and the wall clock) are modelled by an explicit `Env` record passed
to each operation; everything else is translated directly from the source.
JavaScript numbers are modelled as exact rationals (ℚ) — session durations as
integral minutes (ℤ) — JavaScript strings as Lean strings, and
dynamically-typed JSON values by the inductive type `Json` below, with
`none : Option Json` standing for JavaScript `undefined`.
-/

namespace DailyTracker

/-- Runtime JSON/JavaScript values, as produced by JSON.parse. -/
inductive Json where
  | null
  | bool (b : Bool)
  | num (n : ℚ)
  | str (s : String)
  | arr (elems : List Json)
  | obj (fields : List (String × Json))

/-- A JavaScript expression value: `none` is `undefined`, `some j` a JSON value. -/
abbrev JsVal := Option Json

/-- JavaScript truthiness of a JSON value (`null`, `false`, `0`, `""` are falsy). -/
def Json.truthy : Json → Bool
  | Json.null => false
  | Json.bool b => b
  | Json.num n => decide (n ≠ 0)
  | Json.str s => decide (s ≠ "")
  | Json.arr _ => true
  | Json.obj _ => true

/-- JavaScript truthiness of a value; `undefined` is falsy. -/
def JsVal.truthy : JsVal → Bool
  | none => false
  | some j => j.truthy

/-- The JavaScript `v || d` operator: `d` when `v` is falsy, `v` otherwise. -/
def jsOr (v : JsVal) (d : Json) : JsVal :=
  if v.truthy then v else some d

/-- JavaScript property access `v.k`: throws a TypeError on `null`/`undefined`,
returns `undefined` for a missing key or a non-object receiver. -/
def jsGet (v : JsVal) (k : String) : Except String JsVal :=
  match v with
  | none =>
      Except.error ("TypeError: Cannot read properties of undefined (reading " ++ k ++ ")")
  | some Json.null =>
      Except.error ("TypeError: Cannot read properties of null (reading " ++ k ++ ")")
  | some (Json.obj fields) => Except.ok (fields.lookup k)
  | some _ => Except.ok none

/-- JavaScript optional chaining `v?.k`: `undefined` when `v` is `null`/`undefined`. -/
def jsOptGet (v : JsVal) (k : String) : Except String JsVal :=
  match v with
  | none => Except.ok none
  | some Json.null => Except.ok none
  | _ => jsGet v k

/-- JavaScript index access `v[i]`: throws on `null`/`undefined`, indexes arrays
(and string characters), `undefined` otherwise. -/
def jsIndex (v : JsVal) (i : Nat) : Except String JsVal :=
  match v with
  | none =>
      Except.error ("TypeError: Cannot read properties of undefined (reading " ++ toString i ++ ")")
  | some Json.null =>
      Except.error ("TypeError: Cannot read properties of null (reading " ++ toString i ++ ")")
  | some (Json.arr elems) => Except.ok elems[i]?
  | some (Json.str s) => Except.ok ((s.toList[i]?).map (fun c => Json.str (String.singleton c)))
  | some _ => Except.ok none

/-- Outcome of the single `fetch` performed by `callOpenAI`: either the promise
rejects (transport failure), or a response arrives with an `ok` flag, a body
text (`response.text()`), and a body-JSON outcome (`response.json()`, which may
itself throw on a malformed body). -/
inductive FetchOutcome where
  | reject (msg : String)
  | resp (ok : Bool) (bodyText : String) (bodyJson : Except String Json)

/-- External world of one operation call: `OPENAI_API_KEY` from the process
environment (`none` = unset), the fetch outcome, the behaviour of `JSON.parse`
on the value handed to it, and `new Date().toISOString()`. -/
structure Env where
  apiKey : Option String
  fetch : FetchOutcome
  jsonParse : JsVal → Except String Json
  now : String

/-- The guard `if (!OPENAI_API_KEY)`: true when the key is unset or empty. -/
def keyMissing (env : Env) : Bool :=
  match env.apiKey with
  | none => true
  | some s => decide (s = "")

/-- callOpenAI (src/lib/ai/gemini.ts lines 22-68): throws a configuration error
when the key is missing, propagates fetch rejection, throws `OpenAI API error:
<body>` on a non-ok response, otherwise extracts
`data.choices[0]?.message?.content || "\x7b\x7d"`. The prompt and optional image
only shape the request, so they do not affect the env-determined outcome. -/
def callOpenAI (env : Env) (_prompt : String) (_imageBase64 : Option String) :
    Except String JsVal :=
  if keyMissing env then Except.error "OPENAI_API_KEY is not configured"
  else
    match env.fetch with
    | FetchOutcome.reject msg => Except.error msg
    | FetchOutcome.resp ok bodyText bodyJson =>
      if !ok then Except.error ("OpenAI API error: " ++ bodyText)
      else do
        let data ← bodyJson
        let choices ← jsGet (some data) "choices"
        let c0 ← jsIndex choices 0
        let msg ← jsOptGet c0 "message"
        let content ← jsOptGet msg "content"
        Except.ok (jsOr content (Json.str "\x7b\x7d"))

/-- The closed ActivityType enumeration (src/lib/ai/gemini.ts lines 189-192). -/
def validTypes : List String :=
  ["coding", "browsing", "documentation", "communication",
   "meeting", "design", "entertainment", "other"]

/-- validateActivityType (src/lib/ai/gemini.ts lines 188-194). -/
def validateActivityType (type : String) : String :=
  if validTypes.contains type then type else "other"

/-- Runtime behaviour of `validateActivityType` when applied to an arbitrary
parsed JSON field (TypeScript does not check the `string` annotation at
runtime): `Array.includes` succeeds only on an equal string, so any non-string
value collapses to `other`. -/
def validateActivityTypeJs (v : JsVal) : String :=
  match v with
  | some (Json.str s) => validateActivityType s
  | _ => "other"

/-- Result shape of `analyzeScreenshot` (ScreenshotAnalysis minus the
caller-assigned id/screenshot_id/created_at). Fields read from parsed JSON keep
their runtime JavaScript value; `activity_type` is always a string because
`validateActivityType` returns one, and `tags`/`confidence` are code constants. -/
structure AnalysisOut where
  app_name : JsVal
  activity_type : String
  description : JsVal
  detailed_content : JsVal
  tags : List String
  confidence : ℚ
  raw_response : JsVal

/-- The fixed instruction prompt of `analyzeScreenshot` (lines 76-83). -/
def analyzePrompt : String :=
  "分析这张屏幕截图，详细记录用户正在做什么。返回JSON：\n\n\x7b\n  \"app_name\": \"应用名称\",\n  \"activity_type\": \"coding/browsing/documentation/communication/meeting/design/entertainment/other\",\n  \"description\": \"一句话描述正在做什么\",\n  \"detailed_content\": \"详细记录屏幕内容：正在编辑什么文件、写什么代码、看什么网页、和谁聊天聊什么、读什么文档等，200-400字，要具体\"\n\x7d"

/-- Body of `analyzeScreenshot`'s success branch (lines 89-97): reads the four
keys from the parsed result (each read throws if the result is JSON `null`) and
assembles the record with its defaults. -/
def analyzeSuccess (response : JsVal) (result : Json) : Except String AnalysisOut := do
  let an ← jsGet (some result) "app_name"
  let aty ← jsGet (some result) "activity_type"
  let desc ← jsGet (some result) "description"
  let dc ← jsGet (some result) "detailed_content"
  Except.ok
    { app_name := jsOr an (Json.str "Unknown")
      activity_type := validateActivityTypeJs aty
      description := jsOr desc (Json.str "")
      detailed_content := jsOr dc (Json.str "")
      tags := []
      confidence := 0.8
      raw_response := response }

/-- The `try` block of `analyzeScreenshot` (lines 85-97): call the model, parse
the response, build the success record. Any step may throw. -/
def analyzeScreenshotTry (env : Env) (imageBase64 : String) : Except String AnalysisOut := do
  let response ← callOpenAI env analyzePrompt (some imageBase64)
  let result ← env.jsonParse response
  analyzeSuccess response result

/-- The `catch` block of `analyzeScreenshot` (lines 98-111): the locally
computed fallback record built from the error message. -/
def analysisFallback (errorMessage : String) : AnalysisOut :=
  { app_name := some (Json.str "Unknown")
    activity_type := "other"
    description := some (Json.str ("分析失败: " ++ errorMessage.take 50))
    detailed_content := some (Json.str errorMessage)
    tags := []
    confidence := 0
    raw_response := some (Json.str errorMessage) }

/-- analyzeScreenshot (src/lib/ai/gemini.ts lines 73-112): the try block with
every error converted to the fallback record. -/
def analyzeScreenshot (env : Env) (imageBase64 : String) : AnalysisOut :=
  match analyzeScreenshotTry env imageBase64 with
  | Except.ok r => r
  | Except.error e => analysisFallback e

/-- Modelled from the spec: the ScreenshotAnalysis record consumed by
`generateReport` is declared in `@lib/types`, which is not under src/. Spec §3
gives its fields: application name, activity category, short description,
detailed content, tags, confidence, raw model response (id/timestamp fields are
caller-assigned and never read here). `activity_type` is carried as a runtime
string: the TypeScript annotation (and the `as ActivityType` cast at the use
site) is not checked at runtime. -/
structure ScreenshotAnalysis where
  app_name : String
  activity_type : String
  description : String
  detailed_content : String
  tags : List String
  confidence : ℚ
  raw_response : String
  deriving DecidableEq

/-- One `Map.set(k, (m.get(k) || 0) + 1)` step on a JavaScript Map, modelled as
an association list in insertion order: an existing key keeps its position, a
new key is appended. -/
def bump (m : List (String × Nat)) (k : String) : List (String × Nat) :=
  if m.any (fun p => p.1 = k) then
    m.map (fun p => if p.1 = k then (p.1, p.2 + 1) else p)
  else m ++ [(k, 1)]

/-- The `activityStats` Map of `generateReport` (lines 121-128): occurrence
counts of `activity_type`, keys in first-seen order. -/
def activityStats (analyses : List ScreenshotAnalysis) : List (String × Nat) :=
  analyses.foldl (fun m a => bump m a.activity_type) []

/-- The `appStats` Map of `generateReport` (lines 122-128): occurrence counts
of `app_name`, keys in first-seen order. -/
def appStats (analyses : List ScreenshotAnalysis) : List (String × Nat) :=
  analyses.foldl (fun m a => bump m a.app_name) []

/-- `const totalCount = analyses.length || 1` (line 130): 0 is falsy, so the
denominator is floored at 1. -/
def totalCount (analyses : List ScreenshotAnalysis) : Nat :=
  if analyses.length = 0 then 1 else analyses.length

/-- One value of the TimeBreakdown mapping (lines 135-138). -/
structure BreakdownEntry where
  duration_minutes : ℤ
  percentage : ℤ
  deriving DecidableEq

/-- `Math.round`: round half toward positive infinity, i.e. ⌊x + 1/2⌋. -/
def jsRound (x : ℚ) : ℤ := ⌊x + 1 / 2⌋

/-- The entry computed for one activity (lines 134-138):
`Math.round((sessionDurationMinutes * count) / totalCount)` and
`Math.round((count / totalCount) * 100)`, each rounded independently. Session
durations are modelled as integral minutes (JavaScript float formatting of
fractional durations is out of scope); the division is exact rational
arithmetic. -/
def breakdownFor (sessionDurationMinutes : ℤ) (total : Nat) (count : Nat) :
    BreakdownEntry :=
  { duration_minutes := jsRound (((sessionDurationMinutes : ℚ) * count) / total)
    percentage := jsRound (((count : ℚ) / total) * 100) }

/-- The `timeBreakdown` object (lines 131-139): built by `forEach` over
`activityStats`, so entries follow the Map's insertion order. -/
def timeBreakdown (analyses : List ScreenshotAnalysis) (sessionDurationMinutes : ℤ) :
    List (String × BreakdownEntry) :=
  (activityStats analyses).map
    (fun p => (p.1, breakdownFor sessionDurationMinutes (totalCount analyses) p.2))

/-- One line of the content digest (line 143):
`[app_name] description: detailed_content` with `detailed_content` cut to its
first 200 characters (`a.detailed_content?.slice(0, 200) || ''`; on a string
field the optional chain and the falsy default are the identity). -/
def digestLine (a : ScreenshotAnalysis) : String :=
  "[" ++ a.app_name ++ "] " ++ a.description ++ ": " ++ a.detailed_content.take 200

/-- The `contents` digest (lines 142-144): the first 30 analyses rendered and
joined by newlines. -/
def contentsDigest (analyses : List ScreenshotAnalysis) : String :=
  String.intercalate "\n" ((analyses.take 30).map digestLine)

/-- The summary-request prompt of `generateReport` (lines 146-157). -/
def reportPrompt (analyses : List ScreenshotAnalysis) (sessionDurationMinutes : ℤ) :
    String :=
  "根据以下工作记录生成汇总，返回JSON：\n\n工作时长：" ++ toString sessionDurationMinutes ++
    "分钟\n记录数：" ++ toString analyses.length ++ "\n\n活动详情：\n" ++ contentsDigest analyses ++
    "\n\n\x7b\n  \"summary\": \"今天的工作汇总，5-8句话，具体描述做了什么\",\n  \"activity_log\": [\"主要活动1\", \"主要活动2\", \"...5-10项\"]\n\x7d"

/-- Result shape of `generateReport` (WorkReport minus the caller-assigned
id/session_id/created_at). `summary` keeps its runtime JavaScript value;
`highlights` keeps the raw elements of the parsed `activity_log` array. -/
structure ReportOut where
  summary : JsVal
  highlights : List Json
  time_breakdown : List (String × BreakdownEntry)
  productivity_score : ℚ
  suggestions : List String
  generated_at : String

/-- Body of `generateReport`'s success branch (lines 163-170): reads `summary`
and `activity_log` from the parsed result (each read throws if the result is
JSON `null`) and assembles the report. -/
def reportSuccess (env : Env) (result : Json) (tb : List (String × BreakdownEntry)) :
    Except String ReportOut := do
  let s ← jsGet (some result) "summary"
  let al ← jsGet (some result) "activity_log"
  Except.ok
    { summary := jsOr s (Json.str "今日工作完成")
      highlights :=
        match al with
        | some (Json.arr elems) => elems
        | _ => []
      time_breakdown := tb
      productivity_score := 0
      suggestions := []
      generated_at := env.now }

/-- The `try` block of `generateReport` (lines 159-170). -/
def generateReportTry (env : Env) (analyses : List ScreenshotAnalysis)
    (sessionDurationMinutes : ℤ) : Except String ReportOut := do
  let response ← callOpenAI env (reportPrompt analyses sessionDurationMinutes) none
  let result ← env.jsonParse response
  reportSuccess env result (timeBreakdown analyses sessionDurationMinutes)

/-- `topApps` in the catch block (lines 174-175): the `appStats` keys pushed in
Map iteration order, i.e. first-seen order. -/
def topApps (analyses : List ScreenshotAnalysis) : List String :=
  (appStats analyses).map Prod.fst

/-- The templated fallback summary (line 178):
`今日工作 D 分钟，共 N 条记录。使用了 APPS。` where APPS is the first 3 distinct
app names joined by 、, or 多个应用 when that join is empty. -/
def fallbackSummary (analyses : List ScreenshotAnalysis) (sessionDurationMinutes : ℤ) :
    String :=
  "今日工作 " ++ toString sessionDurationMinutes ++ " 分钟，共 " ++
    toString analyses.length ++ " 条记录。使用了 " ++
    (let joined := String.intercalate "、" ((topApps analyses).take 3)
     if joined = "" then "多个应用" else joined) ++ "。"

/-- The `catch` block of `generateReport` (lines 171-185): the locally computed
fallback report. -/
def reportFallback (env : Env) (analyses : List ScreenshotAnalysis)
    (sessionDurationMinutes : ℤ) : ReportOut :=
  { summary := some (Json.str (fallbackSummary analyses sessionDurationMinutes))
    highlights := ((topApps analyses).take 5).map (fun app => Json.str ("使用 " ++ app))
    time_breakdown := timeBreakdown analyses sessionDurationMinutes
    productivity_score := 0
    suggestions := []
    generated_at := env.now }

/-- generateReport (src/lib/ai/gemini.ts lines 117-186): the try block with
every error converted to the fallback report. -/
def generateReport (env : Env) (analyses : List ScreenshotAnalysis)
    (sessionDurationMinutes : ℤ) : ReportOut :=
  match generateReportTry env analyses sessionDurationMinutes with
  | Except.ok r => r
  | Except.error _ => reportFallback env analyses sessionDurationMinutes

/-- Distinct elements of a list in order of first occurrence; reference
definition used to state what "first-seen order" means for the Map keys. -/
def firstSeen : List String → List String
  | [] => []
  | x :: xs => x :: firstSeen (xs.filter (fun y => y ≠ x))
termination_by l => l.length
decreasing_by
  simp only [List.length_cons]
  exact Nat.lt_succ_of_le (List.length_filter_le _ _)

/-- `s` contains `needle` as a contiguous substring. -/
def ContainsStr (s needle : String) : Prop :=
  ∃ p q, s = p ++ needle ++ q

/-- Insertion of one key into the key list of a JavaScript Map: an existing
key keeps its position, a new key is appended. -/
def addKey (ks : List String) (k : String) : List String :=
  if k ∈ ks then ks else ks ++ [k]

/-- Concrete environment: `OPENAI_API_KEY` unset, so every model call fails
with the configuration error before any network activity. -/
def envNoKey : Env :=
  { apiKey := none
    fetch := FetchOutcome.reject "fetch failed"
    jsonParse := fun _ => Except.error "SyntaxError: Unexpected end of JSON input"
    now := "2026-01-01T00:00:00.000Z" }

/-- Concrete environment: key configured, transport responds with a non-ok
status and an error body. -/
def envHttpError : Env :=
  { apiKey := some "sk-test"
    fetch := FetchOutcome.resp false "429 Too Many Requests" (Except.error "unused")
    jsonParse := fun _ => Except.error "SyntaxError: Unexpected token"
    now := "2026-01-01T00:00:00.000Z" }

/-- Concrete environment: key configured, the model answers with the JSON text
`\x7b"summary":"完成"\x7d`, and `JSON.parse` maps exactly that text to the
corresponding object. -/
def envSummaryDone : Env :=
  { apiKey := some "sk-test"
    fetch := FetchOutcome.resp true ""
      (Except.ok (Json.obj [("choices",
        Json.arr [Json.obj [("message",
          Json.obj [("content", Json.str "\x7b\"summary\":\"完成\"\x7d")])]])]))
    jsonParse := fun v =>
      match v with
      | some (Json.str s) =>
          if s = "\x7b\"summary\":\"完成\"\x7d" then
            Except.ok (Json.obj [("summary", Json.str "完成")])
          else Except.error "SyntaxError: Unexpected token"
      | _ => Except.error "SyntaxError: Unexpected token"
    now := "2026-01-01T00:00:00.000Z" }

/-- Concrete environment: key configured, ok response whose body decodes to an
object with an empty `choices` array, so no message text is present. -/
def envEmptyChoices : Env :=
  { apiKey := some "sk-test"
    fetch := FetchOutcome.resp true ""
      (Except.ok (Json.obj [("choices", Json.arr [])]))
    jsonParse := fun _ => Except.error "SyntaxError: Unexpected token"
    now := "2026-01-01T00:00:00.000Z" }

/-- A concrete analysis record for witnesses. -/
def sampleRecord (app ty : String) : ScreenshotAnalysis :=
  { app_name := app
    activity_type := ty
    description := "desc"
    detailed_content := "content"
    tags := []
    confidence := 0
    raw_response := "raw" }

lemma error_bind {α β : Type} (e : String) (f : α → Except String β) :
    (Except.error e >>= f : Except String β) = Except.error e := rfl

lemma ok_bind {α β : Type} (a : α) (f : α → Except String β) :
    (Except.ok a >>= f : Except String β) = f a := rfl

lemma contains_iff_mem (l : List String) (s : String) : l.contains s = true ↔ s ∈ l := by
  simp

lemma validateActivityType_mem (s : String) : validateActivityType s ∈ validTypes := by
  unfold validateActivityType
  by_cases h : s ∈ validTypes
  · rw [if_pos ((contains_iff_mem _ _).mpr h)]
    exact h
  · rw [if_neg (by simpa using (contains_iff_mem validTypes s).not.mpr h)]
    simp [validTypes]

lemma validateActivityTypeJs_mem (v : JsVal) : validateActivityTypeJs v ∈ validTypes := by
  cases v with
  | none => simp [validateActivityTypeJs, validTypes]
  | some j =>
    cases j <;>
      first
        | exact validateActivityType_mem _
        | simp [validateActivityTypeJs, validTypes]

lemma analyzeSuccess_ok {response : JsVal} {result : Json} {r : AnalysisOut}
    (h : analyzeSuccess response result = Except.ok r) :
    r.tags = [] ∧ r.confidence = 0.8 ∧ r.raw_response = response ∧
      r.activity_type ∈ validTypes := by
  cases result <;> simp only [analyzeSuccess, jsGet, ok_bind, error_bind] at h
  case null => exact Except.noConfusion h
  case obj fields =>
    obtain rfl := (Except.ok.inj h).symm
    exact ⟨rfl, rfl, rfl, validateActivityTypeJs_mem (fields.lookup "activity_type")⟩
  all_goals
    obtain rfl := (Except.ok.inj h).symm
    exact ⟨rfl, rfl, rfl, validateActivityTypeJs_mem none⟩

lemma reportSuccess_ok {env : Env} {result : Json} {tb : List (String × BreakdownEntry)}
    {r : ReportOut} (h : reportSuccess env result tb = Except.ok r) :
    r.time_breakdown = tb ∧ r.productivity_score = 0 ∧ r.suggestions = [] ∧
      r.generated_at = env.now := by
  cases result <;> simp only [reportSuccess, jsGet, ok_bind, error_bind] at h
  case null => exact Except.noConfusion h
  all_goals
    obtain rfl := (Except.ok.inj h).symm
    exact ⟨rfl, rfl, rfl, rfl⟩

lemma analyzeScreenshotTry_ok {env : Env} {img : String} {r : AnalysisOut}
    (h : analyzeScreenshotTry env img = Except.ok r) :
    ∃ response result, analyzeSuccess response result = Except.ok r := by
  unfold analyzeScreenshotTry at h
  cases hc : callOpenAI env analyzePrompt (some img) with
  | error e => rw [hc, error_bind] at h; exact absurd h (by simp)
  | ok response =>
    rw [hc, ok_bind] at h
    cases hp : env.jsonParse response with
    | error e => rw [hp, error_bind] at h; exact absurd h (by simp)
    | ok result => rw [hp, ok_bind] at h; exact ⟨response, result, h⟩

lemma generateReportTry_ok {env : Env} {analyses : List ScreenshotAnalysis}
    {dur : ℤ} {r : ReportOut} (h : generateReportTry env analyses dur = Except.ok r) :
    ∃ result, reportSuccess env result (timeBreakdown analyses dur) = Except.ok r := by
  unfold generateReportTry at h
  cases hc : callOpenAI env (reportPrompt analyses dur) none with
  | error e => rw [hc, error_bind] at h; exact absurd h (by simp)
  | ok response =>
    rw [hc, ok_bind] at h
    cases hp : env.jsonParse response with
    | error e => rw [hp, error_bind] at h; exact absurd h (by simp)
    | ok result => rw [hp, ok_bind] at h; exact ⟨result, h⟩

lemma bump_keys (m : List (String × Nat)) (k : String) :
    (bump m k).map Prod.fst = addKey (m.map Prod.fst) k := by
  unfold bump addKey
  by_cases h : k ∈ m.map Prod.fst
  · have hb : (m.any fun p => p.1 = k) = true := by
      simp only [List.any_eq_true]
      obtain ⟨p, hp, he⟩ := List.mem_map.mp h
      exact ⟨p, hp, by simp [he]⟩
    rw [if_pos hb, if_pos h, List.map_map]
    refine List.map_congr_left ?_
    intro p _
    by_cases hpk : p.1 = k <;> simp [hpk]
  · have hb : (m.any fun p => p.1 = k) = false := by
      simp only [List.any_eq_false]
      intro p hp
      simp only [decide_eq_true_eq]
      intro he
      exact h (List.mem_map.mpr ⟨p, hp, he⟩)
    rw [if_neg (by simp [hb]), if_neg h, List.map_append]
    rfl

lemma foldl_bump_keys (f : ScreenshotAnalysis → String) (l : List ScreenshotAnalysis)
    (m : List (String × Nat)) :
    (l.foldl (fun m a => bump m (f a)) m).map Prod.fst =
      (l.map f).foldl addKey (m.map Prod.fst) := by
  induction l generalizing m with
  | nil => rfl
  | cons a l ih => simp only [List.foldl_cons, List.map_cons, ih, bump_keys]

lemma foldl_addKey_firstSeen (l : List String) (ks : List String) :
    l.foldl addKey ks = ks ++ firstSeen (l.filter (fun x => decide (x ∉ ks))) := by
  induction l generalizing ks with
  | nil => simp [firstSeen]
  | cons x xs ih =>
    rw [List.foldl_cons]
    by_cases hx : x ∈ ks
    · have h1 : addKey ks x = ks := by simp [addKey, hx]
      have h2 : (x :: xs).filter (fun y => decide (y ∉ ks)) =
          xs.filter (fun y => decide (y ∉ ks)) := by
        rw [List.filter_cons_of_neg (by simpa using hx)]
      rw [h1, h2, ih]
    · have h1 : addKey ks x = ks ++ [x] := by simp [addKey, hx]
      have h2 : (x :: xs).filter (fun y => decide (y ∉ ks)) =
          x :: xs.filter (fun y => decide (y ∉ ks)) := by
        rw [List.filter_cons_of_pos (by simpa using hx)]
      rw [h1, h2, ih, firstSeen]
      have h3 : (xs.filter (fun y => decide (y ∉ ks))).filter (fun y => decide (y ≠ x)) =
          xs.filter (fun y => decide (y ∉ ks ++ [x])) := by
        rw [List.filter_filter]
        refine List.filter_congr ?_
        intro y _
        by_cases hy : y ∈ ks <;> by_cases hyx : y = x <;>
          simp [hy, hyx, List.mem_append]
      rw [h3, List.append_assoc]
      rfl

lemma firstSeen_sub {l : List String} {x : String} (h : x ∈ firstSeen l) : x ∈ l := by
  induction l using firstSeen.induct with
  | case1 => simp [firstSeen] at h
  | case2 a xs ih =>
    rw [firstSeen] at h
    rcases List.mem_cons.mp h with rfl | h2
    · exact List.mem_cons_self _ _
    · exact List.mem_cons_of_mem _ (List.mem_filter.mp (ih h2)).1

lemma firstSeen_mem (l : List String) (x : String) : x ∈ firstSeen l ↔ x ∈ l := by
  constructor
  · exact firstSeen_sub
  · intro h
    induction l using firstSeen.induct with
    | case1 => simp at h
    | case2 a xs ih =>
      rw [firstSeen]
      rcases List.mem_cons.mp h with rfl | h2
      · exact List.mem_cons_self _ _
      · by_cases hxa : x = a
        · exact hxa ▸ List.mem_cons_self _ _
        · exact List.mem_cons_of_mem _ (ih (List.mem_filter.mpr ⟨h2, by simpa using hxa⟩))

lemma activityStats_keys (analyses : List ScreenshotAnalysis) :
    (activityStats analyses).map Prod.fst =
      firstSeen (analyses.map ScreenshotAnalysis.activity_type) := by
  unfold activityStats
  rw [foldl_bump_keys]
  rw [foldl_addKey_firstSeen]
  simp

lemma topApps_eq_firstSeen (analyses : List ScreenshotAnalysis) :
    topApps analyses = firstSeen (analyses.map ScreenshotAnalysis.app_name) := by
  unfold topApps appStats
  rw [foldl_bump_keys]
  rw [foldl_addKey_firstSeen]
  simp

lemma generateReport_tb (env : Env) (analyses : List ScreenshotAnalysis) (dur : ℤ) :
    (generateReport env analyses dur).time_breakdown = timeBreakdown analyses dur := by
  unfold generateReport
  cases h : generateReportTry env analyses dur with
  | error e => rfl
  | ok r =>
    obtain ⟨result, hs⟩ := generateReportTry_ok h
    exact (reportSuccess_ok hs).1

/-- Claim C7: validateActivityType is total and idempotent: every member of the
closed ActivityType enumeration is returned unchanged, every other string maps
to `other`, and applying the function twice is the same as applying it once. -/
theorem claim_C7 (s : String) :
    (s ∈ validTypes → validateActivityType s = s) ∧
    (s ∉ validTypes → validateActivityType s = "other") ∧
    validateActivityType (validateActivityType s) = validateActivityType s := by
  have hmem : ∀ t : String, t ∈ validTypes → validateActivityType t = t := by
    intro t ht
    unfold validateActivityType
    rw [if_pos ((contains_iff_mem _ _).mpr ht)]
  have hnot : ∀ t : String, t ∉ validTypes → validateActivityType t = "other" := by
    intro t ht
    unfold validateActivityType
    rw [if_neg (by simpa using (contains_iff_mem validTypes t).not.mpr ht)]
  refine ⟨hmem s, hnot s, ?_⟩
  by_cases h : s ∈ validTypes
  · rw [hmem s h]
    exact hmem s h
  · rw [hnot s h]
    exact hmem _ (by simp [validTypes])

/-- Witness for C7: a valid category is kept, an unrecognized one collapses. -/
theorem claim_C7_witness :
    validateActivityType "coding" = "coding" ∧ validateActivityType "vibing" = "other" :=
  ⟨(claim_C7 "coding").1 (by decide), (claim_C7 "vibing").2.1 (by decide)⟩

/-- Claim C8: every record produced by analyzeScreenshot, on the success and
the fallback path alike, carries an activity_type belonging to the closed
enumeration coding/browsing/documentation/communication/meeting/design/
entertainment/other, never an arbitrary string. -/
theorem claim_C8 (env : Env) (imageBase64 : String) :
    validTypes = ["coding", "browsing", "documentation", "communication",
      "meeting", "design", "entertainment", "other"] ∧
    (analyzeScreenshot env imageBase64).activity_type ∈ validTypes := by
  refine ⟨rfl, ?_⟩
  unfold analyzeScreenshot
  cases h : analyzeScreenshotTry env imageBase64 with
  | error e => simp [analysisFallback, validTypes]
  | ok r =>
    obtain ⟨response, result, hs⟩ := analyzeScreenshotTry_ok h
    exact (analyzeSuccess_ok hs).2.2.2

/-- Claim C9: callOpenAI throws the configuration error when the credential is
absent; throws a provider error whose message carries the response body text on
a non-ok transport response; on success returns the first choice message text,
or the empty-JSON-object text when that text is absent. -/
theorem claim_C9 (env : Env) (prompt : String) (img : Option String) :
    (keyMissing env = true →
      callOpenAI env prompt img = Except.error "OPENAI_API_KEY is not configured") ∧
    (keyMissing env = false → ∀ bodyText bodyJson,
      env.fetch = FetchOutcome.resp false bodyText bodyJson →
      callOpenAI env prompt img = Except.error ("OpenAI API error: " ++ bodyText)) ∧
    (keyMissing env = false → ∀ bodyText s restMsg restChoices,
      env.fetch = FetchOutcome.resp true bodyText (Except.ok (Json.obj [("choices",
        Json.arr (Json.obj [("message",
          Json.obj (("content", Json.str s) :: restMsg))] :: restChoices))])) →
      s ≠ "" →
      callOpenAI env prompt img = Except.ok (some (Json.str s))) ∧
    (keyMissing env = false → ∀ bodyText,
      env.fetch = FetchOutcome.resp true bodyText
        (Except.ok (Json.obj [("choices", Json.arr [])])) →
      callOpenAI env prompt img = Except.ok (some (Json.str "\x7b\x7d"))) := by
  refine ⟨?_, ?_, ?_, ?_⟩
  · intro h
    unfold callOpenAI
    rw [if_pos h]
  · intro h bodyText bodyJson hf
    unfold callOpenAI
    rw [if_neg (by simp [h]), hf]
    rfl
  · intro h bodyText s restMsg restChoices hf hs
    unfold callOpenAI
    rw [if_neg (by simp [h]), hf]
    simp [jsGet, jsIndex, jsOptGet, jsOr, JsVal.truthy, Json.truthy, ok_bind,
      List.lookup, hs]
  · intro h bodyText hf
    unfold callOpenAI
    rw [if_neg (by simp [h]), hf]
    simp [jsGet, jsIndex, jsOptGet, jsOr, JsVal.truthy, Json.truthy, ok_bind,
      List.lookup]

/-- Witness for C9: the four branches at concrete environments — missing key,
non-ok response with body `429 Too Many Requests`, a first choice carrying a
message text, and an empty choices array. -/
theorem claim_C9_witness :
    callOpenAI envNoKey "p" none = Except.error "OPENAI_API_KEY is not configured" ∧
    callOpenAI envHttpError "p" none =
      Except.error ("OpenAI API error: " ++ "429 Too Many Requests") ∧
    callOpenAI envSummaryDone "p" none =
      Except.ok (some (Json.str "\x7b\"summary\":\"完成\"\x7d")) ∧
    callOpenAI envEmptyChoices "p" none = Except.ok (some (Json.str "\x7b\x7d")) :=
  ⟨(claim_C9 envNoKey "p" none).1 rfl,
   (claim_C9 envHttpError "p" none).2.1 rfl "429 Too Many Requests"
     (Except.error "unused") rfl,
   (claim_C9 envSummaryDone "p" none).2.2.1 rfl ""
     "\x7b\"summary\":\"完成\"\x7d" [] [] rfl (by decide),
   (claim_C9 envEmptyChoices "p" none).2.2.2 rfl "" rfl⟩

/-- Claim C1: for every environment and input, analyzeScreenshot and
generateReport return a record: either the try block succeeded and its record
is returned unchanged, or the try block threw and the error was converted into
the locally computed fallback record — no error propagates to the caller. -/
theorem claim_C1 (env : Env) (imageBase64 : String)
    (analyses : List ScreenshotAnalysis) (dur : ℤ) :
    ((∃ r, analyzeScreenshotTry env imageBase64 = Except.ok r ∧
        analyzeScreenshot env imageBase64 = r) ∨
      (∃ e, analyzeScreenshotTry env imageBase64 = Except.error e ∧
        analyzeScreenshot env imageBase64 = analysisFallback e)) ∧
    ((∃ r, generateReportTry env analyses dur = Except.ok r ∧
        generateReport env analyses dur = r) ∨
      (∃ e, generateReportTry env analyses dur = Except.error e ∧
        generateReport env analyses dur = reportFallback env analyses dur)) := by
  constructor
  · cases h : analyzeScreenshotTry env imageBase64 with
    | ok r => exact Or.inl ⟨r, rfl, by unfold analyzeScreenshot; rw [h]⟩
    | error e => exact Or.inr ⟨e, rfl, by unfold analyzeScreenshot; rw [h]⟩
  · cases h : generateReportTry env analyses dur with
    | ok r => exact Or.inl ⟨r, rfl, by unfold generateReport; rw [h]⟩
    | error e => exact Or.inr ⟨e, rfl, by unfold generateReport; rw [h]⟩

/-- Claim C3: on any failure of the try block analyzeScreenshot returns the
fallback record — app_name `Unknown`, activity_type `other`, description a
fixed prefix plus the first 50 characters of the error message,
detailed_content and raw_response the full error message, confidence exactly
0 — while the success path sets confidence exactly 0.8, so confidence is 0 if
and only if the fallback path was taken. -/
theorem claim_C3 (env : Env) (imageBase64 : String) :
    (∀ e, analyzeScreenshotTry env imageBase64 = Except.error e →
      analyzeScreenshot env imageBase64 =
        { app_name := some (Json.str "Unknown")
          activity_type := "other"
          description := some (Json.str ("分析失败: " ++ e.take 50))
          detailed_content := some (Json.str e)
          tags := []
          confidence := 0
          raw_response := some (Json.str e) }) ∧
    (∀ r, analyzeScreenshotTry env imageBase64 = Except.ok r → r.confidence = 0.8) ∧
    ((analyzeScreenshot env imageBase64).confidence = 0 ↔
      ∃ e, analyzeScreenshotTry env imageBase64 = Except.error e) := by
  refine ⟨?_, ?_, ?_⟩
  · intro e he
    unfold analyzeScreenshot
    rw [he]
    rfl
  · intro r hr
    obtain ⟨response, result, hs⟩ := analyzeScreenshotTry_ok hr
    exact (analyzeSuccess_ok hs).2.1
  · cases h : analyzeScreenshotTry env imageBase64 with
    | error e =>
      unfold analyzeScreenshot
      rw [h]
      exact ⟨fun _ => ⟨e, rfl⟩, fun _ => rfl⟩
    | ok r =>
      unfold analyzeScreenshot
      rw [h]
      obtain ⟨response, result, hs⟩ := analyzeScreenshotTry_ok h
      have hc := (analyzeSuccess_ok hs).2.1
      constructor
      · intro h0
        have h0' : r.confidence = 0 := h0
        rw [hc] at h0'
        norm_num at h0'
      · rintro ⟨e, he⟩
        exact Except.noConfusion he

/-- Witness for C3: with the credential unset the fallback record is produced,
with the configuration error as the message. -/
theorem claim_C3_witness :
    analyzeScreenshot envNoKey "" =
      { app_name := some (Json.str "Unknown")
        activity_type := "other"
        description := some (Json.str ("分析失败: " ++
          String.take "OPENAI_API_KEY is not configured" 50))
        detailed_content := some (Json.str "OPENAI_API_KEY is not configured")
        tags := []
        confidence := 0
        raw_response := some (Json.str "OPENAI_API_KEY is not configured") } :=
  (claim_C3 envNoKey "").1 "OPENAI_API_KEY is not configured" rfl

/-- Claim C2: for an input of exactly three analysis records with activity
types coding, coding, browsing and a 60-minute session, time_breakdown maps
coding to 40 minutes / 67 % and browsing to 20 minutes / 33 %, where the
rounding (Math.round) is round-half-up, ⌊x + 1/2⌋. -/
theorem claim_C2 (env : Env) (a1 a2 a3 : ScreenshotAnalysis)
    (h1 : a1.activity_type = "coding") (h2 : a2.activity_type = "coding")
    (h3 : a3.activity_type = "browsing") :
    (∀ x : ℚ, jsRound x = ⌊x + 1 / 2⌋) ∧
    (generateReport env [a1, a2, a3] 60).time_breakdown =
      [("coding", { duration_minutes := 40, percentage := 67 }),
       ("browsing", { duration_minutes := 20, percentage := 33 })] := by
  refine ⟨fun _ => rfl, ?_⟩
  rw [generateReport_tb]
  unfold timeBreakdown activityStats totalCount
  simp only [List.foldl_cons, List.foldl_nil, h1, h2, h3]
  simp [bump, breakdownFor, jsRound]
  norm_num

/-- Witness for C2 at a concrete record list. -/
theorem claim_C2_witness :
    (generateReport envNoKey [sampleRecord "A" "coding", sampleRecord "B" "coding",
        sampleRecord "C" "browsing"] 60).time_breakdown =
      [("coding", { duration_minutes := 40, percentage := 67 }),
       ("browsing", { duration_minutes := 20, percentage := 33 })] :=
  (claim_C2 envNoKey _ _ _ rfl rfl rfl).2

/-- Claim C10: generateReport uses each input record's activity_type verbatim
as a time_breakdown key without re-validating it: the key list is exactly the
distinct activity_type strings of the input in first-seen order, the key set
equals the set of activity_type strings occurring in the input, and every
input record's activity_type — enumeration member or not — appears among the
keys. -/
theorem claim_C10 (env : Env) (analyses : List ScreenshotAnalysis) (dur : ℤ) :
    (generateReport env analyses dur).time_breakdown.map Prod.fst =
      firstSeen (analyses.map ScreenshotAnalysis.activity_type) ∧
    (∀ t, t ∈ (generateReport env analyses dur).time_breakdown.map Prod.fst ↔
      t ∈ analyses.map ScreenshotAnalysis.activity_type) ∧
    (∀ a ∈ analyses, a.activity_type ∈
      (generateReport env analyses dur).time_breakdown.map Prod.fst) := by
  have hk : (generateReport env analyses dur).time_breakdown.map Prod.fst =
      firstSeen (analyses.map ScreenshotAnalysis.activity_type) := by
    rw [generateReport_tb]
    unfold timeBreakdown
    rw [List.map_map]
    exact activityStats_keys analyses
  refine ⟨hk, ?_, ?_⟩
  · intro t
    rw [hk, firstSeen_mem]
  · intro a ha
    rw [hk, firstSeen_mem]
    exact List.mem_map.mpr ⟨a, ha, rfl⟩

/-- Witness for C10: a record carrying the out-of-enumeration activity type
`weird` yields `weird` as a time_breakdown key. -/
theorem claim_C10_witness :
    "weird" ∈ (generateReport envNoKey [sampleRecord "App" "weird"] 5).time_breakdown.map
      Prod.fst :=
  (claim_C10 envNoKey [sampleRecord "App" "weird"] 5).2.2 (sampleRecord "App" "weird")
    (List.mem_singleton.mpr rfl)

/-- Claim C5: when the model call fails, generateReport falls back to the
template summary naming the literal session duration, the record count, and up
to the first 3 distinct application names in first-seen order (or 多个应用 when
that join is empty); highlights are 使用-app entries for up to the first 5
distinct application names; time_breakdown is the locally computed mapping (the
same value the success path emits), productivity_score is 0 and suggestions are
empty. -/
theorem claim_C5 (env : Env) (analyses : List ScreenshotAnalysis) (dur : ℤ)
    (e : String) (htry : generateReportTry env analyses dur = Except.error e) :
    (generateReport env analyses dur).summary = some (Json.str
      ("今日工作 " ++ toString dur ++ " 分钟，共 " ++ toString analyses.length ++
        " 条记录。使用了 " ++
        (let joined := String.intercalate "、"
          ((firstSeen (analyses.map ScreenshotAnalysis.app_name)).take 3)
         if joined = "" then "多个应用" else joined) ++ "。")) ∧
    (∃ s, (generateReport env analyses dur).summary = some (Json.str s) ∧
      ContainsStr s (toString dur) ∧ ContainsStr s (toString analyses.length)) ∧
    (generateReport env analyses dur).highlights =
      ((firstSeen (analyses.map ScreenshotAnalysis.app_name)).take 5).map
        (fun app => Json.str ("使用 " ++ app)) ∧
    (generateReport env analyses dur).time_breakdown = timeBreakdown analyses dur ∧
    (generateReport env analyses dur).productivity_score = 0 ∧
    (generateReport env analyses dur).suggestions = [] := by
  have hg : generateReport env analyses dur = reportFallback env analyses dur := by
    unfold generateReport
    rw [htry]
  have happ := topApps_eq_firstSeen analyses
  rw [hg]
  refine ⟨?_, ?_, ?_, rfl, rfl, rfl⟩
  · simp only [reportFallback, fallbackSummary, happ]
  · refine ⟨fallbackSummary analyses dur, rfl,
      ⟨"今日工作 ", " 分钟，共 " ++ toString analyses.length ++ " 条记录。使用了 " ++
        (let joined := String.intercalate "、" ((topApps analyses).take 3)
         if joined = "" then "多个应用" else joined) ++ "。",
        by simp [fallbackSummary, String.append_assoc]⟩,
      ⟨"今日工作 " ++ toString dur ++ " 分钟，共 ",
        " 条记录。使用了 " ++
        (let joined := String.intercalate "、" ((topApps analyses).take 3)
         if joined = "" then "多个应用" else joined) ++ "。",
        by simp [fallbackSummary, String.append_assoc]⟩⟩
  · simp only [reportFallback, happ]

/-- Witness for C5 at a concrete failing environment. -/
theorem claim_C5_witness :
    (generateReport envNoKey [sampleRecord "A" "coding"] 7).highlights =
      ((firstSeen ([sampleRecord "A" "coding"].map ScreenshotAnalysis.app_name)).take 5).map
        (fun app => Json.str ("使用 " ++ app)) :=
  (claim_C5 envNoKey [sampleRecord "A" "coding"] 7
    "OPENAI_API_KEY is not configured" rfl).2.2.1

/-- Claim C6: the content digest is built from only the first 30 analyses, each
rendered as `[app_name] description: detailed_content` with detailed_content
truncated to its first 200 characters, joined by newlines; the digest appears
verbatim inside the prompt, is unchanged when analyses past the 30th change,
and each line is unchanged when detailed_content past its 200th character
changes. -/
theorem claim_C6 (analyses l2 : List ScreenshotAnalysis) (a : ScreenshotAnalysis)
    (s1 s2 : String) (dur : ℤ)
    (h30 : analyses.take 30 = l2.take 30) (h200 : s1.take 200 = s2.take 200) :
    contentsDigest analyses =
      String.intercalate "\n" ((analyses.take 30).map digestLine) ∧
    digestLine a = "[" ++ a.app_name ++ "] " ++ a.description ++ ": " ++
      a.detailed_content.take 200 ∧
    ContainsStr (reportPrompt analyses dur) (contentsDigest analyses) ∧
    contentsDigest analyses = contentsDigest l2 ∧
    digestLine { a with detailed_content := s1 } =
      digestLine { a with detailed_content := s2 } := by
  refine ⟨rfl, rfl, ?_, ?_, ?_⟩
  · exact ⟨"根据以下工作记录生成汇总，返回JSON：\n\n工作时长：" ++ toString dur ++ "分钟\n记录数：" ++
      toString analyses.length ++ "\n\n活动详情：\n",
      "\n\n\x7b\n  \"summary\": \"今天的工作汇总，5-8句话，具体描述做了什么\",\n  \"activity_log\": [\"主要活动1\", \"主要活动2\", \"...5-10项\"]\n\x7d",
      by simp [reportPrompt, String.append_assoc]⟩
  · unfold contentsDigest
    rw [h30]
  · show "[" ++ a.app_name ++ "] " ++ a.description ++ ": " ++ s1.take 200 =
      "[" ++ a.app_name ++ "] " ++ a.description ++ ": " ++ s2.take 200
    rw [h200]

set_option maxRecDepth 100000 in
/-- Witness for C6: a 31-record list digests like its 30-record prefix, and a
201-character detailed_content digests like its 200-character prefix. -/
theorem claim_C6_witness :
    contentsDigest (List.replicate 31 (sampleRecord "A" "coding")) =
      contentsDigest (List.replicate 30 (sampleRecord "A" "coding")) ∧
    digestLine { sampleRecord "A" "coding" with detailed_content := "".pushn 'a' 201 } =
      digestLine { sampleRecord "A" "coding" with detailed_content := "".pushn 'a' 200 } := by
  have h := claim_C6 (List.replicate 31 (sampleRecord "A" "coding"))
    (List.replicate 30 (sampleRecord "A" "coding")) (sampleRecord "A" "coding")
    ("".pushn 'a' 201) ("".pushn 'a' 200) 0
    (by simp [List.take_replicate])
    (by decide)
  exact ⟨h.2.2.2.1, h.2.2.2.2⟩

/-- Counterexample to C4 as stated: with an empty input and duration 0 but a
succeeding model call (environment `envSummaryDone`, model text 完成), the
returned summary is the model's text and references neither 0 records nor 0
minutes — it contains no character `0` at all. The summary-references-0 part of
the claim holds only on the fallback path. -/
theorem claim_C4_counterexample :
    (generateReport envSummaryDone [] 0).summary = some (Json.str "完成") ∧
    ¬ (∃ s, (generateReport envSummaryDone [] 0).summary = some (Json.str s) ∧
        ContainsStr s "0") := by
  have hsum : (generateReport envSummaryDone [] 0).summary = some (Json.str "完成") := rfl
  refine ⟨hsum, ?_⟩
  rintro ⟨s, hs, p, q, hpq⟩
  rw [hsum] at hs
  injection hs with h1
  injection h1 with h2
  rw [← h2] at hpq
  have hd : ("完成").data = (p.data ++ ("0").data) ++ q.data := by
    rw [hpq, String.data_append, String.data_append]
  have hmem : '0' ∈ ("完成").data := by
    rw [hd]
    refine List.mem_append.mpr (Or.inl (List.mem_append.mpr (Or.inr ?_)))
    decide
  exact absurd hmem (by decide)

/-- Claim C4 (amended): for an empty analyses list and duration 0,
generateReport performs no division by zero (the denominator is the record
count floored at 1), its time_breakdown is empty, the prompt sent to the model
references 0 minutes and 0 records, and on the fallback path the summary still
references 0 minutes and 0 records (on the model path the summary is the
model-returned text). -/
theorem claim_C4 (env : Env) :
    totalCount [] = 1 ∧
    (generateReport env [] 0).time_breakdown = [] ∧
    ContainsStr (reportPrompt [] 0) "工作时长：0分钟" ∧
    ContainsStr (reportPrompt [] 0) "记录数：0" ∧
    (∀ e, generateReportTry env [] 0 = Except.error e →
      ∃ s, (generateReport env [] 0).summary = some (Json.str s) ∧
        ContainsStr s "0 分钟" ∧ ContainsStr s "0 条记录") := by
  refine ⟨rfl, ?_, ?_, ?_, ?_⟩
  · rw [generateReport_tb]
    rfl
  · exact ⟨"根据以下工作记录生成汇总，返回JSON：\n\n",
      "\n记录数：0\n\n活动详情：\n\n\n\x7b\n  \"summary\": \"今天的工作汇总，5-8句话，具体描述做了什么\",\n  \"activity_log\": [\"主要活动1\", \"主要活动2\", \"...5-10项\"]\n\x7d",
      by decide⟩
  · exact ⟨"根据以下工作记录生成汇总，返回JSON：\n\n工作时长：0分钟\n",
      "\n\n活动详情：\n\n\n\x7b\n  \"summary\": \"今天的工作汇总，5-8句话，具体描述做了什么\",\n  \"activity_log\": [\"主要活动1\", \"主要活动2\", \"...5-10项\"]\n\x7d",
      by decide⟩
  · intro e he
    have hg : generateReport env [] 0 = reportFallback env [] 0 := by
      unfold generateReport
      rw [he]
    rw [hg]
    exact ⟨fallbackSummary [] 0, rfl,
      ⟨"今日工作 ", "，共 0 条记录。使用了 多个应用。", by decide⟩,
      ⟨"今日工作 0 分钟，共 ", "。使用了 多个应用。", by decide⟩⟩

/-- Witness for C4 (amended) at the concrete no-key environment. -/
theorem claim_C4_witness :
    ∃ s, (generateReport envNoKey [] 0).summary = some (Json.str s) ∧
      ContainsStr s "0 分钟" ∧ ContainsStr s "0 条记录" :=
  (claim_C4 envNoKey).2.2.2.2 "OPENAI_API_KEY is not configured" rfl

end DailyTracker
